import Mathlib

/-!
Shallow embedding of the trading-bot core of the `exchnnage2.0` repository.

Numeric values (Python floats / Decimals) are modelled as exact rationals;
`round(x, d)` is Python's round-half-to-even at `d` decimal places.
The random draw `random.uniform(a, b)` is modelled as `a + (b - a) * t`
for a parameter `t ∈ [0, 1]` standing for the seeded random fraction.
-/

namespace Exchnnage

/-- Round-half-to-even of a rational to an integer, the semantics of
Python's builtin `round` on an exact value. -/
def roundHalfEven (q : ℚ) : ℤ :=
  if q - ⌊q⌋ < 1/2 then ⌊q⌋
  else if 1/2 < q - ⌊q⌋ then ⌊q⌋ + 1
  else if ⌊q⌋ % 2 = 0 then ⌊q⌋ else ⌊q⌋ + 1

/-- Python's `round(x, d)`: round `x` half-to-even at `d` decimal places. -/
def pyRound (x : ℚ) (d : ℕ) : ℚ :=
  (roundHalfEven (x * 10 ^ d) : ℚ) / 10 ^ d

/-- `random.uniform(a, b)` under seed parameter `t ∈ [0, 1]`. -/
def uniformDraw (a b t : ℚ) : ℚ := a + (b - a) * t

theorem floor_le_roundHalfEven (q : ℚ) : ⌊q⌋ ≤ roundHalfEven q := by
  unfold roundHalfEven
  split_ifs <;> omega

theorem roundHalfEven_le_ceil (q : ℚ) : roundHalfEven q ≤ ⌈q⌉ := by
  unfold roundHalfEven
  have hfc : ⌊q⌋ ≤ ⌈q⌉ := Int.floor_le_ceil q
  have hkey : q - ⌊q⌋ ≥ 1/2 → ⌊q⌋ + 1 ≤ ⌈q⌉ := by
    intro h
    have hlt : (⌊q⌋ : ℚ) < q := by linarith
    have : ⌊q⌋ < ⌈q⌉ := Int.lt_ceil.mpr hlt
    omega
  split_ifs with h1 h2 h3
  · exact hfc
  · exact hkey (by linarith)
  · exact hfc
  · exact hkey (by linarith)

theorem roundHalfEven_intCast (n : ℤ) : roundHalfEven (n : ℚ) = n := by
  unfold roundHalfEven
  rw [Int.floor_intCast]
  simp

/-- `pyRound` is the identity on values representable at `d` decimal places. -/
theorem pyRound_eq_self (x : ℚ) (d : ℕ) (n : ℤ) (h : x * 10 ^ d = n) :
    pyRound x d = x := by
  unfold pyRound
  rw [h, roundHalfEven_intCast, ← h]
  field_simp

/-- `pyRound` never drops below a lower bound representable at `d` decimals. -/
theorem le_pyRound (x a : ℚ) (d : ℕ) (n : ℤ) (hgrid : a * 10 ^ d = n)
    (hle : a ≤ x) : a ≤ pyRound x d := by
  unfold pyRound
  have hpow : (0 : ℚ) < 10 ^ d := by positivity
  rw [le_div_iff₀ hpow, hgrid]
  have h1 : n ≤ ⌊x * 10 ^ d⌋ := by
    rw [Int.le_floor]
    calc (n : ℚ) = a * 10 ^ d := hgrid.symm
    _ ≤ x * 10 ^ d := by
        exact mul_le_mul_of_nonneg_right hle (le_of_lt hpow)
  have h2 := floor_le_roundHalfEven (x * 10 ^ d)
  exact_mod_cast le_trans h1 h2

/-- `pyRound` never exceeds an upper bound representable at `d` decimals. -/
theorem pyRound_le (x a : ℚ) (d : ℕ) (n : ℤ) (hgrid : a * 10 ^ d = n)
    (hle : x ≤ a) : pyRound x d ≤ a := by
  unfold pyRound
  have hpow : (0 : ℚ) < 10 ^ d := by positivity
  rw [div_le_iff₀ hpow, hgrid]
  have h1 : ⌈x * 10 ^ d⌉ ≤ n := by
    rw [Int.ceil_le]
    calc x * 10 ^ d ≤ a * 10 ^ d := by
          exact mul_le_mul_of_nonneg_right hle (le_of_lt hpow)
    _ = (n : ℚ) := hgrid
  have h2 := roundHalfEven_le_ceil (x * 10 ^ d)
  exact_mod_cast le_trans h2 h1

/-- `pyRound` of a non-negative value is non-negative. -/
theorem pyRound_nonneg (x : ℚ) (d : ℕ) (h : 0 ≤ x) : 0 ≤ pyRound x d :=
  le_pyRound x 0 d 0 (by simp) h

/-- A uniform draw over `[a, b]` with fraction `t ∈ [0, 1]` stays in `[a, b]`. -/
theorem uniformDraw_mem (a b t : ℚ) (hab : a ≤ b) (ht0 : 0 ≤ t) (ht1 : t ≤ 1) :
    a ≤ uniformDraw a b t ∧ uniformDraw a b t ≤ b := by
  unfold uniformDraw
  constructor
  · nlinarith
  · nlinarith

/-! ## Data model (`crypto_bot/models.py`) -/

/-- `BotConfig.STATUS_CHOICES`. -/
inductive BotStatus where
  | idle
  | running
  | stopped
  | completed
  | error
deriving DecidableEq, Repr

/-- The `BotConfig` database row, restricted to the fields the trading loop
reads and writes.  `last_run` timestamps are abstract naturals. -/
structure BotState where
  status : BotStatus
  total_order_volume : ℚ
  remaining_volume : ℚ
  per_order_volume : ℚ
  decimal_places : ℕ
  quantity_decimal_places : ℕ
  time_interval : ℕ
  tolerance : ℚ
  error_message : Option String
  last_run : Option ℕ
  completed_volume : ℚ
  total_orders : ℕ
  successful_orders : ℕ
deriving DecidableEq, Repr

/-- An order-book snapshot: bid and ask levels as `(price, quantity)` pairs,
most favorable first (`bids`/`asks` lists of the exchange payload). -/
structure OrderBook where
  bids : List (ℚ × ℚ)
  asks : List (ℚ × ℚ)
deriving DecidableEq, Repr

/-! ## Persistence helpers (`crypto_bot/utilssss/trading_bot.py`) -/

/-- `update_bot_status(bot_config, status, message)`: writes `status`,
`error_message` and `last_run = timezone.now()` together, then saves. -/
def update_bot_status (bot : BotState) (status : BotStatus)
    (message : Option String) (now : ℕ) : BotState :=
  { bot with status := status, error_message := message, last_run := some now }

/-- `update_last_run_time(bot_config)`: writes only `last_run`. -/
def update_last_run_time (bot : BotState) (now : ℕ) : BotState :=
  { bot with last_run := some now }

/-- `update_bot_after_order(bot_config, quantity)`: the post-order counter
update — `total_orders += 1`, `successful_orders += 1`,
`remaining_volume -= quantity`, `completed_volume += quantity`. -/
def update_bot_after_order (bot : BotState) (quantity : ℚ) : BotState :=
  { bot with
    total_orders := bot.total_orders + 1
    successful_orders := bot.successful_orders + 1
    remaining_volume := bot.remaining_volume - quantity
    completed_volume := bot.completed_volume + quantity }

/-- `BotConfig.save` on a fresh row (`not self.pk`): `remaining_volume` is
initialised to `total_order_volume`. -/
def botConfig_save_new (bot : BotState) : BotState :=
  { bot with remaining_volume := bot.total_order_volume }

/-! ## Price/quantity decision (`calculate_order_params`) -/

/-- `calculate_order_params(bot_config, order_book)`.  Returns `none` when a
side of the book is empty (the Python code returns `(None, None)`); otherwise
the price is `round(random.uniform(highest_bid, lowest_ask), decimal_places)`
and the quantity is
`round(min(per_order_volume, remaining_volume), quantity_decimal_places)`.
The random fraction is the parameter `t`. -/
def calculate_order_params (bot : BotState) (book : OrderBook) (t : ℚ) :
    Option (ℚ × ℚ) :=
  match book.bids, book.asks with
  | [], _ => none
  | _, [] => none
  | bidEntry :: _, askEntry :: _ =>
    let highest_bid := bidEntry.1
    let lowest_ask := askEntry.1
    let price := pyRound (uniformDraw highest_bid lowest_ask t) bot.decimal_places
    let quantity := pyRound (min bot.per_order_volume bot.remaining_volume)
      bot.quantity_decimal_places
    some (price, quantity)

/-! ## One iteration of `simple_trading_bot_loop` -/

/-- Levels of the process logger (`logging`). -/
inductive LogLevel where
  | debug
  | info
  | warning
  | error
deriving DecidableEq, Repr

/-- Where a diagnostic line lands.  The `crypto_bot` app writes all loop
diagnostics through the Python `logging` module; it has no `BotLog` database
table (only the separate `bot` app does). -/
inductive LogTarget where
  | processLogger
  | botLogTable
deriving DecidableEq, Repr

structure LogEvent where
  level : LogLevel
  target : LogTarget
deriving DecidableEq, Repr

/-- The environment one loop iteration runs against: the outcome of the
ticker fetch (`get_ticker_data`, `none` on structured failure or falsy data),
the outcome of the order-book fetch (`get_order_book`), the random fraction
consumed by `calculate_order_params`, whether `client.create_order` accepts
the order, and the wall-clock timestamp. -/
structure CycleEnv where
  ticker : Option Unit
  book : Option OrderBook
  t : ℚ
  placeOk : Bool
  now : ℕ
deriving DecidableEq, Repr

/-- What one iteration of the loop body did. -/
structure CycleResult where
  bot : BotState
  logs : List LogEvent
  sleep : Option ℕ
  exitLoop : Bool
  orderCreated : Bool
deriving DecidableEq, Repr

/-- One iteration of the `while True` body of `simple_trading_bot_loop`
(lines 109–158 of `crypto_bot/utilssss/trading_bot.py`), with the
cancellation poll and the config-deleted check factored out (they depend on
the scheduler, not on the data).  Control decisions mirror the source:
status check, remaining-volume check, ticker fetch, order-book fetch,
parameter calculation with Python's falsy test `not price or not quantity`,
placement, then `update_last_run_time` and `sleep(time_interval)`.  Fetch
and calculation failures sleep a hard-coded 5 seconds.  A failed placement
performs no counter update (`update_bot_after_order` runs only under
`if success`). -/
def simple_cycle (bot : BotState) (env : CycleEnv) : CycleResult :=
  if bot.status ≠ BotStatus.running then
    { bot := bot, logs := [⟨.info, .processLogger⟩], sleep := none,
      exitLoop := true, orderCreated := false }
  else if bot.remaining_volume ≤ 0 then
    { bot := update_bot_status bot .completed (some "Trading volume completed") env.now,
      logs := [⟨.info, .processLogger⟩], sleep := none,
      exitLoop := true, orderCreated := false }
  else
    match env.ticker with
    | none =>
      { bot := bot, logs := [⟨.error, .processLogger⟩, ⟨.warning, .processLogger⟩],
        sleep := some 5, exitLoop := false, orderCreated := false }
    | some _ =>
      match env.book with
      | none =>
        { bot := bot, logs := [⟨.error, .processLogger⟩, ⟨.warning, .processLogger⟩],
          sleep := some 5, exitLoop := false, orderCreated := false }
      | some book =>
        match calculate_order_params bot book env.t with
        | none =>
          { bot := bot, logs := [⟨.warning, .processLogger⟩, ⟨.warning, .processLogger⟩],
            sleep := some 5, exitLoop := false, orderCreated := false }
        | some (price, quantity) =>
          if price = 0 ∨ quantity = 0 then
            { bot := bot, logs := [⟨.warning, .processLogger⟩],
              sleep := some 5, exitLoop := false, orderCreated := false }
          else if env.placeOk then
            { bot := update_last_run_time (update_bot_after_order bot quantity) env.now,
              logs := [⟨.info, .processLogger⟩, ⟨.info, .processLogger⟩],
              sleep := some bot.time_interval, exitLoop := false, orderCreated := true }
          else
            { bot := update_last_run_time bot env.now,
              logs := [⟨.error, .processLogger⟩],
              sleep := some bot.time_interval, exitLoop := false, orderCreated := false }

/-! ## Market analyzer (`bot/utils.py`) -/

/-- A Python exception escaping a function uncaught. -/
inductive PyExn where
  | indexError
deriving DecidableEq, Repr

/-- The dict returned by `calculate_spread_metrics`. -/
structure SpreadMetrics where
  max_buy_price : ℚ
  min_sell_price : ℚ
  spread : ℚ
  mid_price : ℚ
  spread_percentage : ℚ
deriving DecidableEq, Repr

/-- `calculate_spread_metrics(order_book)` from `bot/utils.py`.  The code
indexes `order_book['bids'][0][0]` and `order_book['asks'][0][0]` without
any emptiness check, so on an empty side it raises `IndexError`
(`Except.error`); it never returns a structured failure value.  On
non-empty sides it returns the metrics dict. -/
def calculate_spread_metrics (book : OrderBook) :
    Except PyExn SpreadMetrics :=
  match book.bids, book.asks with
  | bidEntry :: _, askEntry :: _ =>
    let max_buy_price := bidEntry.1
    let min_sell_price := askEntry.1
    let spread := min_sell_price - max_buy_price
    let mid_price := (min_sell_price + max_buy_price) / 2
    let spread_percentage := spread / mid_price * 100
    Except.ok ⟨max_buy_price, min_sell_price, spread, mid_price, spread_percentage⟩
  | _, _ => Except.error PyExn.indexError

/-- The spread-guard stage of `TradingBot.run_trading_loop`
(`bot/engine.py` lines 192–224): recompute the spread metrics from the
order book heads and decide whether the cycle proceeds to place the
sell/buy pair.  `spread_percentage <= risk_tolerance` skips the cycle; an
empty book side raises `IndexError`, which the loop's blanket handler turns
into a logged no-order retry, hence also `false`. -/
def engine_cycle_places_order (book : OrderBook) (risk_tolerance : ℚ) : Bool :=
  match book.bids, book.asks with
  | bidEntry :: _, askEntry :: _ =>
    let max_buy_price := bidEntry.1
    let min_sell_price := askEntry.1
    let spread := min_sell_price - max_buy_price
    let mid_price := (min_sell_price + max_buy_price) / 2
    let spread_percentage := spread / mid_price * 100
    if spread_percentage ≤ risk_tolerance then false else true
  | _, _ => false

/-! ## Manager start/stop (`crypto_bot/views.py` + `run_trading_bot`/`stop_bot`) -/

inductive StartOutcome where
  | notFound
  | alreadyRunning
  | insufficientVolume
  | started
deriving DecidableEq, Repr

structure StartResult where
  outcome : StartOutcome
  bot : Option BotState
  /-- whether the id is in `RUNNING_BOTS` after the call -/
  registered : Bool
deriving DecidableEq, Repr

/-- The combined start surface: `BotConfigViewSet.start` followed by
`run_trading_bot`.  `get_object` 404s when no configuration exists; the view
then rejects `status == 'running'` and `remaining_volume <= 0`;
`run_trading_bot` rejects ids already in `RUNNING_BOTS`, then sets the
status to `running` (via `update_bot_status(bot, 'running', None)`),
registers the task, and returns without awaiting it.  `inMap` says whether
the id is in `RUNNING_BOTS` at entry. -/
def start_bot_endpoint (inMap : Bool) (cfg : Option BotState) (now : ℕ) :
    StartResult :=
  match cfg with
  | none => { outcome := .notFound, bot := none, registered := inMap }
  | some bot =>
    if bot.status = BotStatus.running then
      { outcome := .alreadyRunning, bot := some bot, registered := inMap }
    else if bot.remaining_volume ≤ 0 then
      { outcome := .insufficientVolume, bot := some bot, registered := inMap }
    else if inMap then
      { outcome := .alreadyRunning, bot := some bot, registered := inMap }
    else
      { outcome := .started,
        bot := some (update_bot_status bot .running none now),
        registered := true }

structure StopResult where
  /-- the `error` flag of the JSON payload returned to the caller -/
  errorFlag : Bool
  bot : BotState
  /-- whether the id is in `RUNNING_BOTS` after the call -/
  registered : Bool
deriving DecidableEq, Repr

/-- The combined stop surface: `BotConfigViewSet.stop` followed by
`stop_bot`.  A configuration whose status is not `running` gets an
immediate `error: False` acknowledgement with no state change; `stop_bot`
on an id absent from `RUNNING_BOTS` likewise returns
`{'error': False, 'detail': 'Bot is not running'}` without touching
anything; otherwise the task is cancelled, the status set to `stopped`
(via `update_bot_status`), and the id leaves the registry. -/
def stop_bot_endpoint (inMap : Bool) (bot : BotState) (now : ℕ) : StopResult :=
  if bot.status ≠ BotStatus.running then
    { errorFlag := false, bot := bot, registered := inMap }
  else if inMap then
    { errorFlag := false, bot := update_bot_status bot .stopped none now,
      registered := false }
  else
    { errorFlag := false, bot := bot, registered := inMap }

/-! ## Pionex exchange client (`crypto_bot/exchange_clients/pionex.py`) -/

/-- Outcome of the JSON parse of a 200 response body.  Absent keys model
`result.get('code')` returning `None`. -/
structure ParsedBody where
  code : Option ℤ
  message : Option String
  data : Option String
deriving DecidableEq, Repr

inductive HttpBody where
  | unparseable (raw : String)
  | json (body : ParsedBody)
deriving DecidableEq, Repr

/-- What the transport did: `requests` raised a `RequestException`, or an
HTTP response with a status code and a body came back. -/
inductive HttpOutcome where
  | requestError (msg : String)
  | response (status : ℕ) (body : HttpBody)
deriving DecidableEq, Repr

inductive HttpMethod where
  | get
  | post
  | other (name : String)
deriving DecidableEq, Repr

/-- The structured result shape every client operation returns:
`{"error": True, "detail": ...}` or `{"error": False, "data": ...}`. -/
inductive ApiResult where
  | failure (detail : String)
  | success (data : String)
deriving DecidableEq, Repr

/-- `PionexClient._make_request`.  Signature failure, unsupported method,
transport exception, non-200 status, unparseable body and non-zero API
`code` all return the structured failure shape; the `except` clauses catch
`RequestException`, `JSONDecodeError` and `Exception`, so no exception
escapes.  A 200 response whose body parses with `code == 0` is the success
shape carrying `data` (default empty). -/
def make_request (sigOk : Bool) (method : HttpMethod) (o : HttpOutcome) :
    ApiResult :=
  if ¬sigOk then .failure "Failed to generate signature"
  else
    match method with
    | .other name => .failure ("Unsupported method: " ++ name)
    | _ =>
      match o with
      | .requestError msg => .failure ("Request error: " ++ msg)
      | .response status body =>
        if status ≠ 200 then
          .failure ("HTTP error " ++ toString status)
        else
          match body with
          | .unparseable _ => .failure "Invalid JSON response"
          | .json parsed =>
            if parsed.code = some 0 then
              .success (parsed.data.getD "")
            else
              .failure ("API error " ++ toString (repr parsed.code))

/-! ## C1 — trade price versus the spread -/

/-- A configuration with price precision of 1 decimal place. -/
def c1Bot : BotState :=
  { status := .running, total_order_volume := 10, remaining_volume := 1,
    per_order_volume := 1, decimal_places := 1, quantity_decimal_places := 2,
    time_interval := 60, tolerance := 1, error_message := none, last_run := none,
    completed_volume := 0, total_orders := 0, successful_orders := 0 }

/-- Best bid 1.06, best ask 1.09: a valid book whose prices are not on the
1-decimal grid. -/
def c1Book : OrderBook := ⟨[(53/50, 1)], [(109/100, 1)]⟩

/-- C1, counterexample: for the book with best_bid = 1.06 ≥ 0 and
best_ask = 1.09 ≥ best_bid, at random fraction 0 the computed price is
`round(1.06, 1) = 1.1 > 1.09` — Python's `round` (half-to-even, not
truncation) pushes the price past the best ask, so
`best_bid ≤ price ≤ best_ask` fails. -/
theorem c1_price_crosses_book :
    (0 : ℚ) ≤ 53/50 ∧ (53 : ℚ)/50 ≤ 109/100 ∧
    calculate_order_params c1Bot c1Book 0 = some (11/10, 1) ∧
    (109 : ℚ)/100 < 11/10 := by
  refine ⟨by norm_num, by norm_num, ?_, by norm_num⟩
  simp only [calculate_order_params, c1Bot, c1Book, pyRound, uniformDraw,
    roundHalfEven]
  norm_num

/-- C1, amended: if in addition the best bid and best ask are themselves
representable at the configured decimal precision (integer multiples of
`10^-decimal_places`), then for every random fraction `t ∈ [0, 1]` the
price computed by `calculate_order_params` satisfies
`best_bid ≤ price ≤ best_ask`. -/
theorem calculate_order_params_price_in_spread
    (bot : BotState) (bid ask bq aq : ℚ) (tb ta : List (ℚ × ℚ)) (t p q : ℚ)
    (hcalc : calculate_order_params bot ⟨(bid, bq) :: tb, (ask, aq) :: ta⟩ t
      = some (p, q))
    (_hbid0 : 0 ≤ bid) (hba : bid ≤ ask) (ht0 : 0 ≤ t) (ht1 : t ≤ 1)
    (hgb : ∃ n : ℤ, bid * 10 ^ bot.decimal_places = n)
    (hga : ∃ n : ℤ, ask * 10 ^ bot.decimal_places = n) :
    bid ≤ p ∧ p ≤ ask := by
  obtain ⟨nb, hnb⟩ := hgb
  obtain ⟨na, hna⟩ := hga
  simp only [calculate_order_params, Option.some.injEq, Prod.mk.injEq] at hcalc
  obtain ⟨hp, -⟩ := hcalc
  obtain ⟨hlo, hhi⟩ := uniformDraw_mem bid ask t hba ht0 ht1
  subst hp
  exact ⟨le_pyRound _ _ _ nb hnb hlo, pyRound_le _ _ _ na hna hhi⟩

/-- Witness for the amended C1: bid 100, ask 102, precision 2, t = 1/2
gives price 101, inside the spread. -/
theorem calculate_order_params_price_in_spread_witness :
    (100 : ℚ) ≤ 101 ∧ (101 : ℚ) ≤ 102 := by
  have hcalc : calculate_order_params
      { c1Bot with decimal_places := 2, remaining_volume := 2 }
      ⟨[((100 : ℚ), 1)], [((102 : ℚ), 1)]⟩ (1/2) = some (101, 1) := by
    simp only [calculate_order_params, c1Bot, pyRound, uniformDraw,
      roundHalfEven]
    norm_num
  exact calculate_order_params_price_in_spread
    { c1Bot with decimal_places := 2, remaining_volume := 2 }
    100 102 1 1 [] [] (1/2) 101 1 hcalc (by norm_num) (by norm_num)
    (by norm_num) (by norm_num) ⟨10000, by norm_num⟩ ⟨10200, by norm_num⟩

/-! ## C2 — monotonicity and sign of `remaining_volume` -/

/-- The quantity returned by a successful `calculate_order_params` is the
rounded `min(per_order_volume, remaining_volume)`, whatever the book. -/
theorem calculate_order_params_quantity (bot : BotState) (book : OrderBook)
    (t p q : ℚ) (h : calculate_order_params bot book t = some (p, q)) :
    q = pyRound (min bot.per_order_volume bot.remaining_volume)
      bot.quantity_decimal_places := by
  obtain ⟨bids, asks⟩ := book
  cases bids with
  | nil => simp [calculate_order_params] at h
  | cons b tb =>
    cases asks with
    | nil => simp [calculate_order_params] at h
    | cons a ta =>
      simp only [calculate_order_params, Option.some.injEq, Prod.mk.injEq] at h
      exact h.2.symm

/-- A configuration whose remaining volume 0.006 is finer than its
2-decimal quantity precision. -/
def c2Bot : BotState :=
  { status := .running, total_order_volume := 10, remaining_volume := 3/500,
    per_order_volume := 1, decimal_places := 2, quantity_decimal_places := 2,
    time_interval := 60, tolerance := 1, error_message := none, last_run := none,
    completed_volume := 0, total_orders := 0, successful_orders := 0 }

def c2Env : CycleEnv :=
  { ticker := some (), book := some ⟨[(1, 1)], [(1, 1)]⟩, t := 0,
    placeOk := true, now := 0 }

/-- C2, counterexample: with `remaining_volume = 0.006` and 2-decimal
quantity precision, the loop rounds `min(1, 0.006)` up to `0.01` and the
post-order decrement drives `remaining_volume` to `-0.004 < 0`: the
invariant "never goes negative" fails on the code. -/
theorem c2_remaining_goes_negative :
    0 < c2Bot.remaining_volume ∧
    (simple_cycle c2Bot c2Env).bot.remaining_volume < 0 := by
  constructor
  · norm_num [c2Bot]
  · simp only [simple_cycle, c2Bot, c2Env, calculate_order_params, pyRound,
      uniformDraw, roundHalfEven, update_bot_after_order, update_last_run_time,
      update_bot_status]
    norm_num

/-- Across one loop iteration, `remaining_volume` is either untouched or
decremented by the rounded `min(per_order_volume, remaining_volume)` — and
the decrement only happens from a strictly positive remaining volume. -/
theorem simple_cycle_remaining (bot : BotState) (env : CycleEnv) :
    (simple_cycle bot env).bot.remaining_volume = bot.remaining_volume ∨
    (0 < bot.remaining_volume ∧
      (simple_cycle bot env).bot.remaining_volume =
        bot.remaining_volume -
          pyRound (min bot.per_order_volume bot.remaining_volume)
            bot.quantity_decimal_places) := by
  unfold simple_cycle
  split
  · exact Or.inl rfl
  · split
    · exact Or.inl rfl
    · rename_i h1 h2
      split
      · exact Or.inl rfl
      · split
        · exact Or.inl rfl
        · rename_i book heqBook
          split
          · exact Or.inl rfl
          · rename_i price quantity hcp
            split
            · exact Or.inl rfl
            · have hq := calculate_order_params_quantity bot book env.t
                price quantity hcp
              split
              · refine Or.inr ⟨by linarith [not_le.mp h2], ?_⟩
                simp only [update_last_run_time, update_bot_after_order, hq]
              · exact Or.inl rfl

/-- C2, amended: across every loop iteration `remaining_volume` never
increases, assuming only a non-negative `per_order_volume` (the decrement
branch is rooted at a strictly positive remaining volume, so the rounded
quantity is non-negative even off the precision grid); and, starting from a
non-negative value, it stays non-negative provided `remaining_volume` and
`per_order_volume` are representable at the configured quantity precision
(integer multiples of `10^-quantity_decimal_places`); off that grid the
rounded quantity can exceed the remaining volume and push it negative. -/
theorem remaining_volume_monotone_nonneg (bot : BotState) (env : CycleEnv)
    (hper : 0 ≤ bot.per_order_volume) :
    (simple_cycle bot env).bot.remaining_volume ≤ bot.remaining_volume ∧
    (0 ≤ bot.remaining_volume →
     (∃ n : ℤ, bot.remaining_volume * 10 ^ bot.quantity_decimal_places = n) →
     (∃ n : ℤ, bot.per_order_volume * 10 ^ bot.quantity_decimal_places = n) →
     0 ≤ (simple_cycle bot env).bot.remaining_volume) := by
  constructor
  · rcases simple_cycle_remaining bot env with h | ⟨hpos, h⟩
    · rw [h]
    · rw [h]
      have hq0 : 0 ≤ pyRound (min bot.per_order_volume bot.remaining_volume)
          bot.quantity_decimal_places :=
        pyRound_nonneg _ _ (le_min hper (le_of_lt hpos))
      linarith
  · intro hrem hgr hgp
    obtain ⟨nr, hnr⟩ := hgr
    obtain ⟨np, hnp⟩ := hgp
    have hqty : pyRound (min bot.per_order_volume bot.remaining_volume)
        bot.quantity_decimal_places
        = min bot.per_order_volume bot.remaining_volume := by
      refine pyRound_eq_self _ _ (min np nr) ?_
      have hdist : (min bot.per_order_volume bot.remaining_volume) *
          10 ^ bot.quantity_decimal_places =
          min (bot.per_order_volume * 10 ^ bot.quantity_decimal_places)
            (bot.remaining_volume * 10 ^ bot.quantity_decimal_places) :=
        min_mul_of_nonneg _ _
          (by positivity : (0:ℚ) ≤ 10 ^ bot.quantity_decimal_places)
      rw [hdist, hnp, hnr]
      norm_cast
    have hminr : min bot.per_order_volume bot.remaining_volume ≤
        bot.remaining_volume := min_le_right _ _
    rcases simple_cycle_remaining bot env with h | ⟨-, h⟩
    · rw [h]
      exact hrem
    · rw [h, hqty]
      linarith

/-- Witness for the amended C2: a grid-aligned configuration
(remaining 5, per-order 1, 2 decimals) keeps its remaining volume within
`[0, 5]` across a successful cycle. -/
theorem remaining_volume_monotone_nonneg_witness :
    (simple_cycle { c2Bot with remaining_volume := 5 } c2Env).bot.remaining_volume
      ≤ ({ c2Bot with remaining_volume := 5 } : BotState).remaining_volume ∧
    0 ≤ (simple_cycle { c2Bot with remaining_volume := 5 } c2Env).bot.remaining_volume := by
  have h := remaining_volume_monotone_nonneg { c2Bot with remaining_volume := 5 }
    c2Env (by norm_num [c2Bot])
  exact ⟨h.1, h.2 (by norm_num [c2Bot])
    ⟨500, by norm_num [c2Bot]⟩ ⟨100, by norm_num [c2Bot]⟩⟩

/-! ## C3 — the start surface -/

/-- A stopped configuration with exhausted volume whose id is still in
`RUNNING_BOTS`. -/
def c3Bot : BotState :=
  { status := .stopped, total_order_volume := 10, remaining_volume := 0,
    per_order_volume := 1, decimal_places := 2, quantity_decimal_places := 2,
    time_interval := 60, tolerance := 1, error_message := none, last_run := none,
    completed_volume := 10, total_orders := 10, successful_orders := 10 }

/-- C3, counterexample: for an id that *is* present in the registry map but
whose persisted status is `stopped` and whose volume is exhausted, the
claim requires `AlreadyRunning`; the code answers `InsufficientVolume`,
because the view checks the persisted status and the volume before
`run_trading_bot` ever consults `RUNNING_BOTS`. -/
theorem c3_map_presence_not_checked_first :
    (start_bot_endpoint true (some c3Bot) 0).outcome
      = StartOutcome.insufficientVolume ∧
    StartOutcome.insufficientVolume ≠ StartOutcome.alreadyRunning := by
  constructor
  · simp [start_bot_endpoint, c3Bot]
  · decide

/-- C3, amended: the combined start surface checks, in order, configuration
existence (`NotFound`), persisted `status = running` (`AlreadyRunning`),
`remaining_volume <= 0` (`InsufficientVolume`), and only then membership in
the registry map (`AlreadyRunning`); when all guards pass it marks the
configuration `running` (clearing `error_message`, stamping `last_run`),
registers the loop handle, and returns; failures leave the configuration
and the registry untouched. -/
theorem start_bot_endpoint_spec (inMap : Bool) (cfg : Option BotState) (now : ℕ) :
    ((start_bot_endpoint inMap cfg now).outcome = .notFound ↔ cfg = none) ∧
    (∀ b, cfg = some b →
      ((start_bot_endpoint inMap cfg now).outcome = .alreadyRunning ↔
        (b.status = .running ∨ (0 < b.remaining_volume ∧ inMap = true)))) ∧
    (∀ b, cfg = some b →
      ((start_bot_endpoint inMap cfg now).outcome = .insufficientVolume ↔
        (b.status ≠ .running ∧ b.remaining_volume ≤ 0))) ∧
    (∀ b, cfg = some b →
      ((start_bot_endpoint inMap cfg now).outcome = .started ↔
        (b.status ≠ .running ∧ 0 < b.remaining_volume ∧ inMap = false))) ∧
    (∀ b, cfg = some b → (start_bot_endpoint inMap cfg now).outcome = .started →
      start_bot_endpoint inMap cfg now =
        ⟨.started, some (update_bot_status b .running none now), true⟩) ∧
    ((start_bot_endpoint inMap cfg now).outcome ≠ .started →
      (start_bot_endpoint inMap cfg now).bot = cfg ∧
      (start_bot_endpoint inMap cfg now).registered = inMap) := by
  rcases cfg with _ | b
  · simp [start_bot_endpoint]
  · by_cases hs : b.status = BotStatus.running
    · cases inMap <;> simp [start_bot_endpoint, hs]
    · by_cases hv : b.remaining_volume ≤ 0
      · have hv' : ¬ 0 < b.remaining_volume := not_lt.mpr hv
        cases inMap <;> simp [start_bot_endpoint, hs, hv, hv']
      · have hv' : 0 < b.remaining_volume := not_le.mp hv
        cases inMap <;> simp [start_bot_endpoint, hs, hv, hv']

/-- Witness for the amended C3: starting a stopped configuration with
volume 5 and a free registry slot succeeds and marks it running. -/
theorem start_bot_endpoint_spec_witness :
    start_bot_endpoint false (some { c3Bot with remaining_volume := 5 }) 7 =
      ⟨.started,
       some (update_bot_status { c3Bot with remaining_volume := 5 } .running none 7),
       true⟩ := by
  have h := start_bot_endpoint_spec false
    (some { c3Bot with remaining_volume := 5 }) 7
  refine h.2.2.2.2.1 _ rfl ?_
  refine (h.2.2.2.1 _ rfl).mpr ⟨?_, ?_, rfl⟩
  · simp [c3Bot]
  · norm_num [c3Bot]

/-! ## C4 — effect of a placement success vs failure -/

/-- A running configuration mid-flight: 3 orders so far, volume left. -/
def c4Bot : BotState :=
  { status := .running, total_order_volume := 10, remaining_volume := 5,
    per_order_volume := 1, decimal_places := 2, quantity_decimal_places := 2,
    time_interval := 60, tolerance := 1, error_message := none, last_run := none,
    completed_volume := 5, total_orders := 3, successful_orders := 3 }

def c4Book : OrderBook := ⟨[(1, 1)], [(1, 1)]⟩

/-- A cycle whose placement call is rejected by the exchange. -/
def c4EnvFail : CycleEnv :=
  { ticker := some (), book := some c4Book, t := 0, placeOk := false, now := 9 }

/-- C4, counterexample: when `client.create_order` fails, the loop skips
`update_bot_after_order` entirely — an ERROR is logged and no Order is
created, but `total_orders` stays at 3 instead of the claimed 3 + 1. -/
theorem c4_failure_increments_nothing :
    (simple_cycle c4Bot c4EnvFail).bot.total_orders = 3 ∧
    (simple_cycle c4Bot c4EnvFail).bot.total_orders ≠ c4Bot.total_orders + 1 ∧
    (simple_cycle c4Bot c4EnvFail).logs = [⟨.error, .processLogger⟩] ∧
    (simple_cycle c4Bot c4EnvFail).orderCreated = false := by
  simp only [simple_cycle, c4Bot, c4Book, c4EnvFail, calculate_order_params,
    pyRound, uniformDraw, roundHalfEven, update_last_run_time]
  norm_num

/-- In a cycle that reaches the placement step with a successful placement,
the result is the full post-order update. -/
theorem simple_cycle_place_success (bot : BotState) (env : CycleEnv)
    (book : OrderBook) (p q : ℚ)
    (hs : bot.status = .running) (hv : 0 < bot.remaining_volume)
    (ht : env.ticker = some ()) (hb : env.book = some book)
    (hcp : calculate_order_params bot book env.t = some (p, q))
    (hp : p ≠ 0) (hq : q ≠ 0) (hpl : env.placeOk = true) :
    simple_cycle bot env =
      { bot := update_last_run_time (update_bot_after_order bot q) env.now,
        logs := [⟨.info, .processLogger⟩, ⟨.info, .processLogger⟩],
        sleep := some bot.time_interval, exitLoop := false,
        orderCreated := true } := by
  have hnot : ¬ (bot.status ≠ BotStatus.running) := by simp [hs]
  have hnle : ¬ (bot.remaining_volume ≤ 0) := not_le.mpr hv
  have hpq : ¬ (p = 0 ∨ q = 0) := by simp [hp, hq]
  obtain ⟨tk, bk, t0, pl, now0⟩ := env
  dsimp only at ht hb hcp hpl ⊢
  subst ht
  subst hb
  subst hpl
  unfold simple_cycle
  rw [if_neg hnot, if_neg hnle]
  dsimp only
  rw [hcp]
  dsimp only
  rw [if_neg hpq, if_pos rfl]

/-- In a cycle that reaches the placement step with a failed placement,
only `last_run` changes and an ERROR is logged. -/
theorem simple_cycle_place_failure (bot : BotState) (env : CycleEnv)
    (book : OrderBook) (p q : ℚ)
    (hs : bot.status = .running) (hv : 0 < bot.remaining_volume)
    (ht : env.ticker = some ()) (hb : env.book = some book)
    (hcp : calculate_order_params bot book env.t = some (p, q))
    (hp : p ≠ 0) (hq : q ≠ 0) (hpl : env.placeOk = false) :
    simple_cycle bot env =
      { bot := update_last_run_time bot env.now,
        logs := [⟨.error, .processLogger⟩],
        sleep := some bot.time_interval, exitLoop := false,
        orderCreated := false } := by
  have hnot : ¬ (bot.status ≠ BotStatus.running) := by simp [hs]
  have hnle : ¬ (bot.remaining_volume ≤ 0) := not_le.mpr hv
  have hpq : ¬ (p = 0 ∨ q = 0) := by simp [hp, hq]
  obtain ⟨tk, bk, t0, pl, now0⟩ := env
  dsimp only at ht hb hcp hpl ⊢
  subst ht
  subst hb
  subst hpl
  unfold simple_cycle
  rw [if_neg hnot, if_neg hnle]
  dsimp only
  rw [hcp]
  dsimp only
  rw [if_neg hpq, if_neg (by simp)]

/-- C4, amended: in a cycle that reaches the placement step, a successful
placement persists an Order and decrements `remaining_volume` / increments
`completed_volume` by the executed quantity and `total_orders`,
`successful_orders` by one; a failed placement logs ERROR, creates no
Order, and leaves `remaining_volume` and *all* counters — including
`total_orders` — unchanged. -/
theorem order_placement_updates (bot : BotState) (env : CycleEnv)
    (book : OrderBook) (p q : ℚ)
    (hs : bot.status = .running)
    (hv : 0 < bot.remaining_volume)
    (ht : env.ticker = some ())
    (hb : env.book = some book)
    (hcp : calculate_order_params bot book env.t = some (p, q))
    (hp : p ≠ 0) (hq : q ≠ 0) :
    (env.placeOk = true →
      (simple_cycle bot env).orderCreated = true ∧
      (simple_cycle bot env).bot.remaining_volume = bot.remaining_volume - q ∧
      (simple_cycle bot env).bot.completed_volume = bot.completed_volume + q ∧
      (simple_cycle bot env).bot.total_orders = bot.total_orders + 1 ∧
      (simple_cycle bot env).bot.successful_orders = bot.successful_orders + 1) ∧
    (env.placeOk = false →
      (simple_cycle bot env).orderCreated = false ∧
      LogEvent.mk .error .processLogger ∈ (simple_cycle bot env).logs ∧
      (simple_cycle bot env).bot.remaining_volume = bot.remaining_volume ∧
      (simple_cycle bot env).bot.completed_volume = bot.completed_volume ∧
      (simple_cycle bot env).bot.total_orders = bot.total_orders ∧
      (simple_cycle bot env).bot.successful_orders = bot.successful_orders) := by
  constructor
  · intro hpl
    rw [simple_cycle_place_success bot env book p q hs hv ht hb hcp hp hq hpl]
    simp [update_last_run_time, update_bot_after_order]
  · intro hpl
    rw [simple_cycle_place_failure bot env book p q hs hv ht hb hcp hp hq hpl]
    simp [update_last_run_time]

/-- Witness for the amended C4: a successful placement of quantity 1 takes
the configuration from (remaining 5, completed 5, 3/3 orders) to
(remaining 4, completed 6, 4/4 orders). -/
theorem order_placement_updates_witness :
    ((true = true →
      (simple_cycle c4Bot { c4EnvFail with placeOk := true }).orderCreated = true ∧
      (simple_cycle c4Bot { c4EnvFail with placeOk := true }).bot.remaining_volume
        = c4Bot.remaining_volume - 1 ∧
      (simple_cycle c4Bot { c4EnvFail with placeOk := true }).bot.completed_volume
        = c4Bot.completed_volume + 1 ∧
      (simple_cycle c4Bot { c4EnvFail with placeOk := true }).bot.total_orders
        = c4Bot.total_orders + 1 ∧
      (simple_cycle c4Bot { c4EnvFail with placeOk := true }).bot.successful_orders
        = c4Bot.successful_orders + 1) ∧
    (true = false →
      (simple_cycle c4Bot { c4EnvFail with placeOk := true }).orderCreated = false ∧
      LogEvent.mk .error .processLogger
        ∈ (simple_cycle c4Bot { c4EnvFail with placeOk := true }).logs ∧
      (simple_cycle c4Bot { c4EnvFail with placeOk := true }).bot.remaining_volume
        = c4Bot.remaining_volume ∧
      (simple_cycle c4Bot { c4EnvFail with placeOk := true }).bot.completed_volume
        = c4Bot.completed_volume ∧
      (simple_cycle c4Bot { c4EnvFail with placeOk := true }).bot.total_orders
        = c4Bot.total_orders ∧
      (simple_cycle c4Bot { c4EnvFail with placeOk := true }).bot.successful_orders
        = c4Bot.successful_orders)) := by
  refine order_placement_updates c4Bot { c4EnvFail with placeOk := true }
    c4Book 1 1 rfl (by norm_num [c4Bot]) rfl rfl ?_ one_ne_zero one_ne_zero
  simp only [calculate_order_params, c4Bot, c4Book, c4EnvFail, pyRound,
    uniformDraw, roundHalfEven]
  norm_num

/-! ## C5 — spread metrics and empty book sides -/

/-- C5, counterexample: on a book with an empty bid side (or empty ask
side), `calculate_spread_metrics` raises an uncaught `IndexError` from
`order_book['bids'][0]` — there is no emptiness check and no structured
`InsufficientDepth` return value. -/
theorem c5_empty_side_raises_indexError :
    calculate_spread_metrics ⟨[], [(101, 1)]⟩ = Except.error PyExn.indexError ∧
    calculate_spread_metrics ⟨[(101, 1)], []⟩ = Except.error PyExn.indexError :=
  ⟨rfl, rfl⟩

/-- C5, amended: when both sides are non-empty, `calculate_spread_metrics`
returns exactly `best_bid = bids[0].price`, `best_ask = asks[0].price`,
`spread = best_ask - best_bid`, `mid = (best_ask + best_bid) / 2` and
`spread_pct = spread / mid * 100`; when either side is empty it raises an
unhandled `IndexError` instead of returning a structured
`InsufficientDepth` failure. -/
theorem calculate_spread_metrics_spec (bid ask bq aq : ℚ)
    (tb ta la : List (ℚ × ℚ)) :
    calculate_spread_metrics ⟨(bid, bq) :: tb, (ask, aq) :: ta⟩ =
      Except.ok ⟨bid, ask, ask - bid, (ask + bid) / 2,
        (ask - bid) / ((ask + bid) / 2) * 100⟩ ∧
    calculate_spread_metrics ⟨[], la⟩ = Except.error PyExn.indexError ∧
    calculate_spread_metrics ⟨la, []⟩ = Except.error PyExn.indexError := by
  refine ⟨rfl, rfl, ?_⟩
  cases la <;> rfl

/-! ## C6 — the tolerance guard -/

/-- A running configuration with `tolerance = 5.0`. -/
def c6Bot : BotState :=
  { status := .running, total_order_volume := 10, remaining_volume := 5,
    per_order_volume := 1, decimal_places := 2, quantity_decimal_places := 2,
    time_interval := 60, tolerance := 5, error_message := none, last_run := none,
    completed_volume := 5, total_orders := 3, successful_orders := 3 }

/-- The spec's Scenario B book: `bids=[[100,1]], asks=[[102,1]]`. -/
def c6Book : OrderBook := ⟨[(100, 1)], [(102, 1)]⟩

def c6Env : CycleEnv :=
  { ticker := some (), book := some c6Book, t := 0, placeOk := true, now := 0 }

/-- C6, counterexample: for the book `bids=[[100,1]], asks=[[102,1]]` the
spread percentage is `200/101 ≈ 1.98 ≤ 5.0 = tolerance`, yet the simplified
loop places an order in that cycle and decrements `remaining_volume`:
`simple_trading_bot_loop` never consults the tolerance. -/
theorem c6_order_placed_below_tolerance :
    calculate_spread_metrics c6Book =
      Except.ok ⟨100, 102, 2, 101, 200/101⟩ ∧
    (200 : ℚ)/101 ≤ c6Bot.tolerance ∧
    (simple_cycle c6Bot c6Env).orderCreated = true ∧
    (simple_cycle c6Bot c6Env).bot.remaining_volume < c6Bot.remaining_volume := by
  refine ⟨?_, by norm_num [c6Bot], ?_, ?_⟩
  · simp only [calculate_spread_metrics, c6Book]
    norm_num
  · simp only [simple_cycle, c6Bot, c6Book, c6Env, calculate_order_params,
      pyRound, uniformDraw, roundHalfEven, update_last_run_time,
      update_bot_after_order]
    norm_num
  · simp only [simple_cycle, c6Bot, c6Book, c6Env, calculate_order_params,
      pyRound, uniformDraw, roundHalfEven, update_last_run_time,
      update_bot_after_order]
    norm_num

/-- `calculate_order_params` never reads the tolerance field. -/
theorem calculate_order_params_tolerance (bot : BotState) (book : OrderBook)
    (t tol : ℚ) :
    calculate_order_params { bot with tolerance := tol } book t =
      calculate_order_params bot book t := by
  obtain ⟨bids, asks⟩ := book
  cases bids <;> cases asks <;> rfl

/-- C6, amended: the tolerance guard exists only in the
`TradingBot.run_trading_loop` engine (`bot/engine.py`), whose cycle places
no order when `spread_pct <= risk_tolerance`; the simplified loop
(`crypto_bot/utilssss/trading_bot.py`) never consults the tolerance — under
the same market conditions it places the order for *every* tolerance
value. -/
theorem tolerance_guard_only_in_engine
    (bid ask bq aq : ℚ) (tb ta : List (ℚ × ℚ)) (tol : ℚ)
    (hguard : (ask - bid) / ((ask + bid) / 2) * 100 ≤ tol)
    (bot : BotState) (env : CycleEnv) (book : OrderBook) (p q : ℚ)
    (hs : bot.status = .running) (hv : 0 < bot.remaining_volume)
    (ht : env.ticker = some ()) (hb : env.book = some book)
    (hcp : calculate_order_params bot book env.t = some (p, q))
    (hp : p ≠ 0) (hq : q ≠ 0) (hpl : env.placeOk = true) :
    engine_cycle_places_order ⟨(bid, bq) :: tb, (ask, aq) :: ta⟩ tol = false ∧
    ∀ tol2 : ℚ,
      (simple_cycle { bot with tolerance := tol2 } env).orderCreated = true := by
  constructor
  · show (if (ask - bid) / ((ask + bid) / 2) * 100 ≤ tol then false else true)
      = false
    exact if_pos hguard
  · intro tol2
    have hcp2 : calculate_order_params { bot with tolerance := tol2 } book env.t
        = some (p, q) := by
      rw [calculate_order_params_tolerance]
      exact hcp
    rw [simple_cycle_place_success { bot with tolerance := tol2 } env book p q
      hs hv ht hb hcp2 hp hq hpl]

/-- Witness for the amended C6: Scenario B's book with tolerance 5 skips the
engine cycle, while the simplified loop places the order regardless. -/
theorem tolerance_guard_only_in_engine_witness :
    engine_cycle_places_order ⟨[((100 : ℚ), 1)], [((102 : ℚ), 1)]⟩ 5 = false ∧
    ∀ tol2 : ℚ,
      (simple_cycle { c6Bot with tolerance := tol2 } c6Env).orderCreated
        = true := by
  refine tolerance_guard_only_in_engine 100 102 1 1 [] [] 5 (by norm_num)
    c6Bot c6Env c6Book 100 1 rfl (by norm_num [c6Bot]) rfl rfl ?_
    (by norm_num) one_ne_zero rfl
  simp only [calculate_order_params, c6Bot, c6Book, c6Env, pyRound,
    uniformDraw, roundHalfEven]
  norm_num

/-! ## C7 — order-book fetch failure -/

/-- A cycle whose order-book fetch returns a structured failure
(`get_order_book` maps it to `None`). -/
def c7Env : CycleEnv :=
  { ticker := some (), book := none, t := 0, placeOk := true, now := 0 }

/-- C7, counterexample: on an order-book fetch failure the loop sleeps a
hard-coded 5 seconds — not `time_interval` (60 here) — and the WARNING goes
to the process logger; the `crypto_bot` app has no `BotLog` table, so no
BotLog WARNING row can be created.  The rest of the claim holds: no order,
state untouched, status still `running`. -/
theorem c7_fetch_failure_sleeps_five :
    (simple_cycle c4Bot c7Env).sleep = some 5 ∧
    c4Bot.time_interval = 60 ∧
    ¬ (simple_cycle c4Bot c7Env).sleep = some c4Bot.time_interval ∧
    (simple_cycle c4Bot c7Env).logs =
      [⟨.error, .processLogger⟩, ⟨.warning, .processLogger⟩] ∧
    (simple_cycle c4Bot c7Env).bot = c4Bot ∧
    (simple_cycle c4Bot c7Env).orderCreated = false := by
  simp only [simple_cycle, c4Bot, c7Env]
  norm_num

/-- C7, amended: whenever `get_order_book` reports a structured failure in
a running cycle, a WARNING is emitted — to the process logger, there is no
BotLog table in this app — the loop sleeps a fixed 5 seconds (not
`time_interval`) and continues, no Order is created, and the configuration
is left untouched with status still `running`. -/
theorem order_book_failure_retries (bot : BotState) (env : CycleEnv)
    (hs : bot.status = .running) (hv : 0 < bot.remaining_volume)
    (ht : env.ticker = some ()) (hb : env.book = none) :
    (simple_cycle bot env).bot = bot ∧
    (simple_cycle bot env).bot.status = .running ∧
    LogEvent.mk .warning .processLogger ∈ (simple_cycle bot env).logs ∧
    (∀ e ∈ (simple_cycle bot env).logs, e.target = .processLogger) ∧
    (simple_cycle bot env).sleep = some 5 ∧
    (simple_cycle bot env).exitLoop = false ∧
    (simple_cycle bot env).orderCreated = false := by
  have hnot : ¬ (bot.status ≠ BotStatus.running) := by simp [hs]
  have hnle : ¬ (bot.remaining_volume ≤ 0) := not_le.mpr hv
  have hres : simple_cycle bot env =
      { bot := bot,
        logs := [⟨.error, .processLogger⟩, ⟨.warning, .processLogger⟩],
        sleep := some 5, exitLoop := false, orderCreated := false } := by
    obtain ⟨tk, bk, t0, pl, now0⟩ := env
    dsimp only at ht hb ⊢
    subst ht
    subst hb
    unfold simple_cycle
    rw [if_neg hnot, if_neg hnle]
  rw [hres]
  refine ⟨rfl, hs, ?_, ?_, rfl, rfl, rfl⟩
  · simp
  · intro e he
    simp only [List.mem_cons, List.mem_singleton] at he
    rcases he with rfl | rfl | h
    · rfl
    · rfl
    · simp at h

/-- Witness for the amended C7: the running configuration `c4Bot` against a
failed order-book fetch. -/
theorem order_book_failure_retries_witness :
    (simple_cycle c4Bot c7Env).bot = c4Bot ∧
    (simple_cycle c4Bot c7Env).bot.status = .running ∧
    LogEvent.mk .warning .processLogger ∈ (simple_cycle c4Bot c7Env).logs ∧
    (∀ e ∈ (simple_cycle c4Bot c7Env).logs, e.target = .processLogger) ∧
    (simple_cycle c4Bot c7Env).sleep = some 5 ∧
    (simple_cycle c4Bot c7Env).exitLoop = false ∧
    (simple_cycle c4Bot c7Env).orderCreated = false :=
  order_book_failure_retries c4Bot c7Env rfl (by norm_num [c4Bot]) rfl rfl

/-! ## C8 — idempotence of stop on a non-running bot -/

/-- C8: stopping a bot that is not currently running — persisted status not
`running`, or id absent from `RUNNING_BOTS` — returns a non-error
acknowledgement and changes neither the configuration nor the registry. -/
theorem stop_not_running_noop (inMap : Bool) (bot : BotState) (now : ℕ)
    (h : bot.status ≠ .running ∨ inMap = false) :
    stop_bot_endpoint inMap bot now =
      { errorFlag := false, bot := bot, registered := inMap } := by
  unfold stop_bot_endpoint
  by_cases hs : bot.status ≠ BotStatus.running
  · rw [if_pos hs]
  · rw [if_neg hs]
    rcases h with h | h
    · exact absurd h hs
    · rw [h, if_neg (by simp)]

/-- Witness for C8: stopping the stopped configuration `c3Bot` whose id is
still registered acknowledges without error and changes nothing. -/
theorem stop_not_running_noop_witness :
    stop_bot_endpoint true c3Bot 3 =
      { errorFlag := false, bot := c3Bot, registered := true } :=
  stop_not_running_noop true c3Bot 3 (Or.inl (by simp [c3Bot]))

/-! ## C9 — the exchange client normalizes every failure -/

/-- C9: every transport outcome yields a value of the structured result
shape — never an escaping exception — and in particular request exceptions,
non-200 responses and unparseable bodies all come back as the failure
shape; a success is possible only for a signed, supported-method request
that got a 200 whose body parsed with `code == 0`. -/
theorem make_request_normalizes (sigOk : Bool) (method : HttpMethod)
    (o : HttpOutcome) :
    ((∃ d, make_request sigOk method o = .failure d) ∨
     (∃ dt, make_request sigOk method o = .success dt)) ∧
    (∀ msg, o = .requestError msg →
      ∃ d, make_request sigOk method o = .failure d) ∧
    (∀ st b, o = .response st b → st ≠ 200 →
      ∃ d, make_request sigOk method o = .failure d) ∧
    (∀ st raw, o = .response st (.unparseable raw) →
      ∃ d, make_request sigOk method o = .failure d) ∧
    (∀ dt, make_request sigOk method o = .success dt →
      sigOk = true ∧ ∃ parsed, o = .response 200 (.json parsed) ∧
        parsed.code = some 0 ∧ dt = parsed.data.getD "") := by
  refine ⟨?_, ?_, ?_, ?_, ?_⟩
  · cases hr : make_request sigOk method o with
    | failure d => exact Or.inl ⟨d, rfl⟩
    | success dt => exact Or.inr ⟨dt, rfl⟩
  · rintro msg rfl
    cases sigOk <;> cases method <;> exact ⟨_, rfl⟩
  · rintro st b rfl hst
    cases sigOk
    · exact ⟨_, rfl⟩
    · cases method
      case other name => exact ⟨_, rfl⟩
      case get =>
        refine ⟨"HTTP error " ++ toString st, ?_⟩
        simp only [make_request]
        rw [if_pos hst]
        simp
      case post =>
        refine ⟨"HTTP error " ++ toString st, ?_⟩
        simp only [make_request]
        rw [if_pos hst]
        simp
  · rintro st raw rfl
    cases sigOk
    · exact ⟨_, rfl⟩
    · cases method
      case other name => exact ⟨_, rfl⟩
      case get =>
        by_cases hst : st ≠ 200
        · refine ⟨"HTTP error " ++ toString st, ?_⟩
          simp only [make_request]
          rw [if_pos hst]
          simp
        · push_neg at hst
          subst hst
          exact ⟨_, rfl⟩
      case post =>
        by_cases hst : st ≠ 200
        · refine ⟨"HTTP error " ++ toString st, ?_⟩
          simp only [make_request]
          rw [if_pos hst]
          simp
        · push_neg at hst
          subst hst
          exact ⟨_, rfl⟩
  · intro dt hdt
    cases sigOk
    · simp [make_request] at hdt
    · refine ⟨rfl, ?_⟩
      cases method
      case other name => simp [make_request] at hdt
      all_goals {
        cases o with
        | requestError msg => simp [make_request] at hdt
        | response st body =>
          by_cases hst : st ≠ 200
          · simp only [make_request] at hdt
            rw [if_pos hst] at hdt
            simp at hdt
          · push_neg at hst
            subst hst
            cases body with
            | unparseable raw => simp [make_request] at hdt
            | json parsed =>
              by_cases hc : parsed.code = some 0
              · refine ⟨parsed, rfl, hc, ?_⟩
                simp only [make_request, hc] at hdt
                simp at hdt
                exact hdt.symm
              · simp [make_request, hc] at hdt
      }

/-- Witness for C9: a timed-out request comes back as the failure shape. -/
theorem make_request_normalizes_witness :
    ∃ d, make_request true .get (.requestError "timeout") = .failure d :=
  (make_request_normalizes true .get (.requestError "timeout")).2.1
    "timeout" rfl

/-! ## C10 — `update_bot_status` writes the three fields together -/

/-- C10: `update_bot_status(bot, s, m)` writes `status = s`,
`error_message = m` (overwriting whatever was persisted, including with
null) and `last_run = now` together, and touches nothing else. -/
theorem update_bot_status_spec (bot : BotState) (s : BotStatus)
    (m : Option String) (now : ℕ) :
    (update_bot_status bot s m now).status = s ∧
    (update_bot_status bot s m now).error_message = m ∧
    (update_bot_status bot s m now).last_run = some now ∧
    (update_bot_status bot s m now).total_order_volume = bot.total_order_volume ∧
    (update_bot_status bot s m now).remaining_volume = bot.remaining_volume ∧
    (update_bot_status bot s m now).per_order_volume = bot.per_order_volume ∧
    (update_bot_status bot s m now).decimal_places = bot.decimal_places ∧
    (update_bot_status bot s m now).quantity_decimal_places
      = bot.quantity_decimal_places ∧
    (update_bot_status bot s m now).time_interval = bot.time_interval ∧
    (update_bot_status bot s m now).tolerance = bot.tolerance ∧
    (update_bot_status bot s m now).completed_volume = bot.completed_volume ∧
    (update_bot_status bot s m now).total_orders = bot.total_orders ∧
    (update_bot_status bot s m now).successful_orders = bot.successful_orders :=
  ⟨rfl, rfl, rfl, rfl, rfl, rfl, rfl, rfl, rfl, rfl, rfl, rfl, rfl⟩

end Exchnnage










